import Mathlib

/-!
Verification of the schema and controller layer of the store_api_tdd
repository (src/store/schemas/product.py and src/store/controllers/product.py),
together with the usecase/persistence collaborators those files call into,
modelled from the specification where their source is not part of the tree.
-/

/-- A finite arbitrary-precision decimal as Python's decimal module represents
it: a sign, a coefficient (the digit string, as a natural number) and an
exponent, denoting (-1)^sign * coeff * 10^exp. -/
structure Dec where
  sign : Bool
  coeff : Nat
  exp : Int
deriving DecidableEq

/-- Numeric value of a decimal triple, as an exact rational. -/
def decVal (d : Dec) : ℚ :=
  (if d.sign then (-1 : ℚ) else 1) * d.coeff * (10 : ℚ) ^ d.exp

/-- Fuel-based digit counter: number of base-10 digits of c (0 for c = 0). -/
def numDigitsAux : Nat → Nat → Nat
  | 0, _ => 0
  | fuel + 1, c => if c = 0 then 0 else numDigitsAux fuel (c / 10) + 1

/-- Number of base-10 digits of a nonzero coefficient (Python len(self._int)). -/
def numDigits (c : Nat) : Nat := numDigitsAux c c

/-- Precision of the pymongo Decimal128 context: 34 significant digits. -/
def decPrec : Nat := 34

/-- Smallest literal exponent encodable in Decimal128 (Etiny = Emin - prec + 1
with Emin = -6143). -/
def decEtiny : Int := -6176

/-- Largest literal exponent encodable in Decimal128 (Etop = Emax - prec + 1
with Emax = 6144). -/
def decEtop : Int := 6111

/-- Failure modes of the Decimal128 conversion: the pymongo context traps
decimal.Inexact and decimal.Overflow (and decimal.InvalidOperation, which
cannot arise from a finite decimal triple). -/
inductive ConvErr where
  | inexact
  | overflow
deriving DecidableEq

/-- The pymongo Decimal128 context fix (Python decimal context _fix with
prec = 34, Emax = 6144, Emin = -6143, clamp = 1, ROUND_HALF_EVEN, traps on
Inexact and Overflow): a zero has its exponent clamped into [Etiny, Etop]; a
nonzero value overflows when its adjusted exponent exceeds Emax, is rescaled
up to min-exponent (failing with Inexact unless the dropped digits are all
zero), and has an exponent above Etop folded down by padding the coefficient
with zeros. -/
def fix128 (d : Dec) : Except ConvErr Dec :=
  if d.coeff = 0 then
    Except.ok { d with exp := min (max d.exp decEtiny) decEtop }
  else
    let digits : Int := numDigits d.coeff
    let expMin : Int := d.exp + digits - decPrec
    if decEtop < expMin then
      Except.error ConvErr.overflow
    else
      let expMin2 : Int := max expMin decEtiny
      if d.exp < expMin2 then
        let k : Nat := (expMin2 - d.exp).toNat
        if d.coeff % 10 ^ k = 0 then
          Except.ok { d with coeff := d.coeff / 10 ^ k, exp := expMin2 }
        else
          Except.error ConvErr.inexact
      else if decEtop < d.exp then
        Except.ok { d with coeff := d.coeff * 10 ^ (d.exp - decEtop).toNat, exp := decEtop }
      else
        Except.ok d

/-- Embeds convert_decimal_128 (src/store/schemas/product.py lines 21-22):
`return Decimal128(str(v))`. Python str followed by pymongo's string-to-Decimal
parse is the identity on a finite decimal's (sign, coefficient, exponent)
triple, so the conversion amounts to applying pymongo's Decimal128 context fix
to v; the resulting triple is what Decimal128.to_decimal later returns. -/
def convert_decimal_128 (v : Dec) : Except ConvErr Dec := fix128 v

instance {ε α : Type} [DecidableEq ε] [DecidableEq α] : DecidableEq (Except ε α) := fun a b =>
  match a, b with
  | Except.ok x, Except.ok y =>
      if h : x = y then Decidable.isTrue (by rw [h]) else Decidable.isFalse (by simp [h])
  | Except.error x, Except.error y =>
      if h : x = y then Decidable.isTrue (by rw [h]) else Decidable.isFalse (by simp [h])
  | Except.ok _, Except.error _ => Decidable.isFalse (by simp)
  | Except.error _, Except.ok _ => Decidable.isFalse (by simp)

/-- A decimal triple directly encodable in BSON Decimal128: at most 34
coefficient digits and a literal exponent in [-6176, 6111]. -/
def inRange128 (d : Dec) : Prop :=
  d.coeff < 10 ^ decPrec ∧ decEtiny ≤ d.exp ∧ d.exp ≤ decEtop

instance (d : Dec) : Decidable (inRange128 d) := by
  unfold inRange128
  infer_instance

/-- A string of n zero characters. -/
def zeroPad (n : Nat) : String := String.mk (List.replicate n '0')

/-- Render an integer with an explicit sign, as Python "%+d". -/
def intSigned (i : Int) : String :=
  if 0 ≤ i then "+" ++ Nat.repr i.toNat else "-" ++ Nat.repr (-i).toNat

/-- Python str() of a finite Decimal: the to-scientific-string algorithm of
CPython's decimal module (leftdigits = exp + number of coefficient digits; no
exponent field when exp <= 0 and leftdigits > -6, otherwise one digit left of
the point and an E field holding the adjusted exponent). -/
def toSciString (d : Dec) : String :=
  let ds := Nat.repr d.coeff
  let len : Int := ds.length
  let leftdigits : Int := d.exp + len
  let dotplace : Int := if d.exp ≤ 0 ∧ -6 < leftdigits then leftdigits else 1
  let body :=
    if dotplace ≤ 0 then "0." ++ zeroPad (-dotplace).toNat ++ ds
    else if len ≤ dotplace then ds ++ zeroPad (dotplace - len).toNat
    else ds.take dotplace.toNat ++ "." ++ ds.drop dotplace.toNat
  let exppart := if leftdigits = dotplace then "" else "E" ++ intSigned (leftdigits - dotplace)
  (if d.sign then "-" else "") ++ body ++ exppart

/-- Raw field value of an inbound JSON-like payload, as the validation layer
sees it before any model construction. -/
inductive JValue where
  | jstr (s : String)
  | jint (n : Int)
  | jdec (d : Dec)
  | jbool (b : Bool)
  | jtime (t : Nat)
  | jnull
deriving DecidableEq

/-- First value bound to a key in a raw payload. -/
def lookupJ (raw : List (String × JValue)) (k : String) : Option JValue :=
  (raw.find? (fun p => p.1 == k)).map (fun p => p.2)

/-- Failure of pydantic model construction: a required field is missing, a
field has the wrong type, or a field validator (the Decimal128 conversion)
failed. -/
inductive ValidationError where
  | missing (field : String)
  | wrongType (field : String)
  | conversion (e : ConvErr)
deriving DecidableEq

/-- Embeds ProductBase (src/store/schemas/product.py lines 8-12): name,
quantity, price, status with their declared types. -/
structure ProductBase where
  name : String
  quantity : Int
  price : Dec
  status : Bool
deriving DecidableEq

/-- Embeds construction of ProductBase (src/store/schemas/product.py lines
8-12, shared by ProductIn at lines 14-15): four required fields whose Field
declarations carry only a description — no value constraints. Construction
fails only for a missing field or a type mismatch. -/
def validateProductBase (raw : List (String × JValue)) : Except ValidationError ProductBase :=
  match lookupJ raw "name" with
  | none => Except.error (ValidationError.missing "name")
  | some (JValue.jstr n) =>
    (match lookupJ raw "quantity" with
    | none => Except.error (ValidationError.missing "quantity")
    | some (JValue.jint q) =>
      (match lookupJ raw "price" with
      | none => Except.error (ValidationError.missing "price")
      | some (JValue.jdec p) =>
        (match lookupJ raw "status" with
        | none => Except.error (ValidationError.missing "status")
        | some (JValue.jbool b) => Except.ok ⟨n, q, p, b⟩
        | some _ => Except.error (ValidationError.wrongType "status"))
      | some _ => Except.error (ValidationError.wrongType "price"))
    | some _ => Except.error (ValidationError.wrongType "quantity"))
  | some _ => Except.error (ValidationError.wrongType "name")

/-- Embeds ProductUpdate (src/store/schemas/product.py lines 26-30): quantity,
price, status and updated_at, each Optional with default None; price holds the
Decimal128 value produced by the AfterValidator of line 24. The schema
declares no name field. -/
structure ProductUpdate where
  quantity : Option Int
  price : Option Dec
  status : Option Bool
  updated_at : Option Nat
deriving DecidableEq

/-- Declared field set of the Update Input view ProductUpdate
(src/store/schemas/product.py lines 26-30), in declaration order. -/
def productUpdateFields : List String := ["quantity", "price", "status", "updated_at"]

/-- Validation of ProductUpdate.quantity (line 27): Optional[int] = None. -/
def updQuantity (raw : List (String × JValue)) : Except ValidationError (Option Int) :=
  match lookupJ raw "quantity" with
  | none => Except.ok none
  | some JValue.jnull => Except.ok none
  | some (JValue.jint n) => Except.ok (some n)
  | some _ => Except.error (ValidationError.wrongType "quantity")

/-- Validation of ProductUpdate.price (line 28): Optional[Decimal_] = None,
where Decimal_ is Annotated[Decimal, AfterValidator(convert_decimal_128)]
(line 24): a present decimal is replaced by its Decimal128 conversion during
validation, and a failing conversion aborts construction. -/
def updPrice (raw : List (String × JValue)) : Except ValidationError (Option Dec) :=
  match lookupJ raw "price" with
  | none => Except.ok none
  | some JValue.jnull => Except.ok none
  | some (JValue.jdec d) =>
    (match convert_decimal_128 d with
    | Except.ok t => Except.ok (some t)
    | Except.error e => Except.error (ValidationError.conversion e))
  | some _ => Except.error (ValidationError.wrongType "price")

/-- Validation of ProductUpdate.status (line 29): Optional[bool] = None. -/
def updStatus (raw : List (String × JValue)) : Except ValidationError (Option Bool) :=
  match lookupJ raw "status" with
  | none => Except.ok none
  | some JValue.jnull => Except.ok none
  | some (JValue.jbool b) => Except.ok (some b)
  | some _ => Except.error (ValidationError.wrongType "status")

/-- Validation of ProductUpdate.updated_at (line 30): Optional[datetime] = None. -/
def updUpdatedAt (raw : List (String × JValue)) : Except ValidationError (Option Nat) :=
  match lookupJ raw "updated_at" with
  | none => Except.ok none
  | some JValue.jnull => Except.ok none
  | some (JValue.jtime t) => Except.ok (some t)
  | some _ => Except.error (ValidationError.wrongType "updated_at")

/-- Embeds construction of ProductUpdate (src/store/schemas/product.py lines
26-30): validate each declared optional field; any field failure aborts. -/
def validateProductUpdate (raw : List (String × JValue)) : Except ValidationError ProductUpdate :=
  match updQuantity raw with
  | Except.error e => Except.error e
  | Except.ok q =>
    (match updPrice raw with
    | Except.error e => Except.error e
    | Except.ok p =>
      (match updStatus raw with
      | Except.error e => Except.error e
      | Except.ok s =>
        (match updUpdatedAt raw with
        | Except.error e => Except.error e
        | Except.ok u => Except.ok ⟨q, p, s, u⟩)))

/-- Modelled from the spec: the persisted document layout (spec section 6) —
store/schemas/base.py and the stored/output schemas carrying id and the
timestamps are not part of the tree. Each document carries id, name, quantity,
price (a high-precision decimal), status, created_at and updated_at, and no
other fields. -/
structure StoredProduct where
  id : Nat
  name : String
  quantity : Int
  price : Dec
  status : Bool
  created_at : Nat
  updated_at : Nat
deriving DecidableEq

/-- A BSON-like field value inside an update patch. -/
inductive BVal where
  | vstr (s : String)
  | vint (n : Int)
  | vdec (d : Dec)
  | vbool (b : Bool)
  | vnat (t : Nat)
deriving DecidableEq

/-- Modelled from the spec: the update merge rule build_patch (spec section
4.3) — the usecase source holding it is not part of the tree. The patch maps
exactly the explicitly set fields of the Update Input to their values; fields
left at None are excluded. -/
def buildPatch (u : ProductUpdate) : List (String × BVal) :=
  (match u.quantity with | some q => [("quantity", BVal.vint q)] | none => [])
  ++ (match u.price with | some p => [("price", BVal.vdec p)] | none => [])
  ++ (match u.status with | some b => [("status", BVal.vbool b)] | none => [])
  ++ (match u.updated_at with | some t => [("updated_at", BVal.vnat t)] | none => [])

/-- Modelled from the spec: the storage collaborator's application of one
patch entry to a stored document (a $set of that field, spec section 6). An
entry matching no stored field leaves the document unchanged. -/
def applyField (s : StoredProduct) (kv : String × BVal) : StoredProduct :=
  match kv with
  | ("id", BVal.vnat n) => { s with id := n }
  | ("name", BVal.vstr n) => { s with name := n }
  | ("quantity", BVal.vint q) => { s with quantity := q }
  | ("price", BVal.vdec p) => { s with price := p }
  | ("status", BVal.vbool b) => { s with status := b }
  | ("created_at", BVal.vnat t) => { s with created_at := t }
  | ("updated_at", BVal.vnat t) => { s with updated_at := t }
  | _ => s

/-- Modelled from the spec: the storage collaborator merges a patch into a
stored document field by field, atomically per document (spec sections 4.3
and 6, update_one). -/
def applyPatch (s : StoredProduct) (patch : List (String × BVal)) : StoredProduct :=
  patch.foldl applyField s

/-- Mediator-level error kind of the update/delete path (spec section 7):
store/core/exceptions.py is not part of the tree; NotFoundException carries
the identifier no document matched. -/
inductive UsecaseErr where
  | notFound (id : Nat)
deriving DecidableEq

/-- Modelled from the spec: ProductUsecase.update (spec section 4.4) — the
usecase source is not part of the tree. Look up the document by id; an absent
document fails with NotFoundError of that id; a present one has the patch
built from the update input merged in, returning the post-merge document. -/
def usecaseUpdate (id : Nat) (body : ProductUpdate) (store : List StoredProduct) :
    Except UsecaseErr StoredProduct :=
  match store.find? (fun p => p.id == id) with
  | none => Except.error (UsecaseErr.notFound id)
  | some p => Except.ok (applyPatch p (buildPatch body))

/-- Modelled from the spec: ProductUsecase.delete (spec section 4.4): zero
documents affected fails with NotFoundError; otherwise confirmation with no
payload. -/
def usecaseDelete (id : Nat) (store : List StoredProduct) : Except UsecaseErr Unit :=
  if store.any (fun p => p.id == id) then Except.ok () else Except.error (UsecaseErr.notFound id)

/-- Modelled from the spec: ProductUsecase.query (spec section 4.4): optional
price bounds, each one filtering on the stored price's numeric value when
present; returns the matching documents in storage order. -/
def usecaseQuery (pmin pmax : Option ℚ) (store : List StoredProduct) : List StoredProduct :=
  store.filter (fun p =>
    (match pmin with
     | none => true
     | some lo => decide (lo ≤ decVal p.price)) &&
    (match pmax with
     | none => true
     | some hi => decide (decVal p.price ≤ hi)))

/-- Embeds the body mutation of the patch route (src/store/controllers/product.py
line 55): body.updated_at = datetime.utcnow(), with the current time passed in
as now. -/
def setUpdatedAt (now : Nat) (b : ProductUpdate) : ProductUpdate :=
  { b with updated_at := some now }

/-- Embeds the patch route (src/store/controllers/product.py lines 47-60):
assign updated_at server-side, delegate to the usecase, map NotFoundException
to a 404 response carrying the missing id and success to a 200 response with
the updated document. -/
def patchRoute (now : Nat) (id : Nat) (body : ProductUpdate)
    (store : List StoredProduct) : Except (Nat × Nat) (Nat × StoredProduct) :=
  match usecaseUpdate id (setUpdatedAt now body) store with
  | Except.ok doc => Except.ok (200, doc)
  | Except.error (UsecaseErr.notFound i) => Except.error (404, i)

/-- Embeds the delete route (src/store/controllers/product.py lines 63-72):
delegate to the usecase, map NotFoundException to a 404 response carrying the
missing id and success to a 204 response with no payload. -/
def deleteRoute (id : Nat) (store : List StoredProduct) : Except (Nat × Nat) Nat :=
  match usecaseDelete id store with
  | Except.ok _ => Except.ok 204
  | Except.error (UsecaseErr.notFound i) => Except.error (404, i)

/-- Fuel-based floor of the base-2 logarithm. -/
def natLog2Aux : Nat → Nat → Nat
  | 0, _ => 0
  | fuel + 1, n => if n < 2 then 0 else natLog2Aux fuel (n / 2) + 1

/-- Floor of the base-2 logarithm of a natural number (0 for 0 and 1). -/
def natLog2F (n : Nat) : Nat := natLog2Aux n n

/-- Round the ratio x / y of two naturals to the nearest natural, ties going
to the even one. -/
def natRoundHalfEven (x y : Nat) : Nat :=
  let q := x / y
  let r := x % y
  if 2 * r < y then q
  else if y < 2 * r then q + 1
  else if q % 2 = 0 then q else q + 1

/-- Mantissa and exponent of the IEEE binary64 double nearest to the decimal
numeral d (round to nearest, ties to even; normal range — the model of
Python/FastAPI parsing a decimal numeral into a float query parameter). The
numeral denotes (a / b) * (-1)^sign with a = coeff * 10^max(exp,0) and
b = 10^max(-exp,0); the result is a pair (m, f) denoting m * 2^f, with
2^52 ≤ abs m < 2^53 for nonzero input. Integer arithmetic throughout. -/
def float64Parts (d : Dec) : Int × Int :=
  let a : Nat := d.coeff * 10 ^ d.exp.toNat
  let b : Nat := 10 ^ (-d.exp).toNat
  let k0 : Int := (natLog2F a : Int) - (natLog2F b : Int)
  let lt : Bool := if 0 ≤ k0 then decide (a < 2 ^ k0.toNat * b) else decide (a * 2 ^ (-k0).toNat < b)
  let k : Int := if lt then k0 - 1 else k0
  let m : Nat := natRoundHalfEven (a * 2 ^ (52 - k).toNat) (b * 2 ^ (k - 52).toNat)
  (if d.sign then -(m : Int) else (m : Int), k - 52)

/-- Numeric value of a binary64 mantissa/exponent pair, as an exact
rational. -/
def fval (p : Int × Int) : ℚ := (p.1 : ℚ) * (2 : ℚ) ^ p.2

/-- Embeds the query route (src/store/controllers/product.py lines 37-44, as
intended — the literal line 42 is a syntax error, see claim C6): price_min and
price_max are declared as float query parameters defaulting to None (lines
39-40), so a caller-supplied decimal bound reaches the usecase as the value of
its binary64 rounding, which the storage engine then compares numerically
against the stored high-precision decimal prices. -/
def queryRoute (pminRaw pmaxRaw : Option Dec) (store : List StoredProduct) : List StoredProduct :=
  usecaseQuery (pminRaw.map (fun d => fval (float64Parts d)))
    (pmaxRaw.map (fun d => fval (float64Parts d))) store

lemma numDigitsAux_zero (fuel : Nat) : numDigitsAux fuel 0 = 0 := by
  cases fuel <;> simp [numDigitsAux]

lemma numDigitsAux_bounds : ∀ fuel c, c ≤ fuel →
    c < 10 ^ numDigitsAux fuel c ∧ (c ≠ 0 → 10 ^ (numDigitsAux fuel c - 1) ≤ c) := by
  intro fuel
  induction fuel with
  | zero =>
    intro c hc
    have hc0 : c = 0 := by omega
    subst hc0
    simp [numDigitsAux]
  | succ n ih =>
    intro c hc
    by_cases h0 : c = 0
    · subst h0
      simp [numDigitsAux]
    · have hstep : numDigitsAux (n + 1) c = numDigitsAux n (c / 10) + 1 := by
        simp [numDigitsAux, h0]
      have hdiv : c / 10 ≤ n := by omega
      obtain ⟨ih1, ih2⟩ := ih (c / 10) hdiv
      constructor
      · rw [hstep]
        have e : (10 : Nat) ^ (numDigitsAux n (c / 10) + 1) =
            10 * 10 ^ numDigitsAux n (c / 10) := by
          rw [pow_succ]
          ring
        omega
      · intro _
        rw [hstep]
        by_cases hq : c / 10 = 0
        · rw [hq, numDigitsAux_zero]
          simpa using by omega
        · have h2 := ih2 hq
          have hm1 : 1 ≤ numDigitsAux n (c / 10) := by
            cases n with
            | zero => omega
            | succ k =>
              rw [numDigitsAux]
              simp [hq]
          have e : (10 : Nat) ^ numDigitsAux n (c / 10) =
              10 * 10 ^ (numDigitsAux n (c / 10) - 1) := by
            rw [← pow_succ']
            congr 1
            omega
          simp only [Nat.add_sub_cancel]
          omega

lemma numDigits_lt (c : Nat) : c < 10 ^ numDigits c :=
  (numDigitsAux_bounds c c le_rfl).1

lemma numDigits_le (c : Nat) (h : c ≠ 0) : 10 ^ (numDigits c - 1) ≤ c :=
  (numDigitsAux_bounds c c le_rfl).2 h

lemma numDigits_le_of_lt_pow (c : Nat) (k : Nat) (hk : 1 ≤ k) (h : c < 10 ^ k) :
    numDigits c ≤ k := by
  by_contra hgt
  have h1 : k ≤ numDigits c - 1 := by omega
  have h2 : (10 : Nat) ^ k ≤ 10 ^ (numDigits c - 1) :=
    Nat.pow_le_pow_right (by norm_num) h1
  have h3 : c ≠ 0 := by
    intro h0
    subst h0
    simp [numDigits, numDigitsAux_zero] at hgt
  have h4 := numDigits_le c h3
  omega

lemma decVal_zero_coeff (s : Bool) (e e2 : Int) : decVal ⟨s, 0, e⟩ = decVal ⟨s, 0, e2⟩ := by
  simp [decVal]

lemma decVal_scale_up (s : Bool) (c : Nat) (k : Nat) (e : Int) :
    decVal ⟨s, c * 10 ^ k, e⟩ = decVal ⟨s, c, e + k⟩ := by
  simp only [decVal]
  rw [zpow_add₀ (by norm_num : (10 : ℚ) ≠ 0), zpow_natCast]
  push_cast
  ring

lemma fix128_ok (d t : Dec) (h : fix128 d = Except.ok t) :
    inRange128 t ∧ decVal t = decVal d := by
  obtain ⟨s, c, e⟩ := d
  simp only [fix128, decPrec, decEtiny, decEtop] at h
  split_ifs at h with hc0 hov hlow hdvd hclamp
  · cases h
    subst hc0
    refine ⟨?_, decVal_zero_coeff s _ e⟩
    simp only [inRange128, decPrec, decEtiny, decEtop]
    refine ⟨by norm_num, by omega, by omega⟩
  · cases h
    have hD := numDigits_lt c
    refine ⟨?_, ?_⟩
    · simp only [inRange128, decPrec, decEtiny, decEtop]
      refine ⟨?_, by omega, by omega⟩
      have h34 : numDigits c ≤ 34 + (((e + (numDigits c : Int) - 34) ⊔ -6176) - e).toNat := by
        omega
      have hlt : c < 10 ^ (34 + (((e + (numDigits c : Int) - 34) ⊔ -6176) - e).toNat) :=
        lt_of_lt_of_le hD (Nat.pow_le_pow_right (by norm_num) h34)
      rw [pow_add] at hlt
      have hlt2 : c < 10 ^ (((e + (numDigits c : Int) - 34) ⊔ -6176) - e).toNat * 10 ^ 34 := by
        rw [mul_comm]
        exact hlt
      exact Nat.div_lt_of_lt_mul hlt2
    · have hE2 : ((e + (numDigits c : Int) - 34) ⊔ -6176) =
          e + (((e + (numDigits c : Int) - 34) ⊔ -6176) - e).toNat := by omega
      have hm : c / 10 ^ (((e + (numDigits c : Int) - 34) ⊔ -6176) - e).toNat *
          10 ^ (((e + (numDigits c : Int) - 34) ⊔ -6176) - e).toNat = c :=
        Nat.div_mul_cancel (Nat.dvd_of_mod_eq_zero hdvd)
      calc decVal ⟨s, c / 10 ^ (((e + (numDigits c : Int) - 34) ⊔ -6176) - e).toNat,
              (e + (numDigits c : Int) - 34) ⊔ -6176⟩
          = decVal ⟨s, c / 10 ^ (((e + (numDigits c : Int) - 34) ⊔ -6176) - e).toNat *
              10 ^ (((e + (numDigits c : Int) - 34) ⊔ -6176) - e).toNat, e⟩ := by
            rw [decVal_scale_up]
            rw [← hE2]
        _ = decVal ⟨s, c, e⟩ := by rw [hm]
  · cases h
    have hD := numDigits_lt c
    refine ⟨?_, ?_⟩
    · simp only [inRange128, decPrec, decEtiny, decEtop]
      refine ⟨?_, by omega, by omega⟩
      have hDJ : numDigits c + (e - 6111).toNat ≤ 34 := by omega
      have hstep : c * 10 ^ (e - 6111).toNat < 10 ^ (numDigits c + (e - 6111).toNat) := by
        rw [pow_add]
        exact mul_lt_mul_of_pos_right hD (by positivity)
      exact lt_of_lt_of_le hstep (Nat.pow_le_pow_right (by norm_num) hDJ)
    · rw [decVal_scale_up]
      have he : (6111 : Int) + ((e - 6111).toNat : Int) = e := by omega
      rw [he]
  · cases h
    have hD := numDigits_lt c
    refine ⟨?_, rfl⟩
    simp only [inRange128, decPrec, decEtiny, decEtop]
    refine ⟨?_, by omega, by omega⟩
    have h34 : numDigits c ≤ 34 := by omega
    exact lt_of_lt_of_le hD (Nat.pow_le_pow_right (by norm_num) h34)

lemma fix128_id (d : Dec) (h : inRange128 d) : fix128 d = Except.ok d := by
  obtain ⟨s, c, e⟩ := d
  obtain ⟨hc, hlo, hhi⟩ := h
  simp only [decPrec, decEtiny, decEtop] at hc hlo hhi
  by_cases hc0 : c = 0
  · subst hc0
    have he : (e ⊔ decEtiny) ⊓ decEtop = e := by
      simp only [decEtiny, decEtop]
      omega
    simp [fix128, he]
  · have hD : numDigits c ≤ 34 := numDigits_le_of_lt_pow c 34 (by norm_num) hc
    simp only [fix128, decPrec, decEtiny, decEtop]
    split_ifs with h1 h2 h3 h4 <;> first | rfl | omega

lemma not_representable_1e7000 :
    ¬ ∃ t : Dec, inRange128 t ∧ decVal t = decVal ⟨false, 1, 7000⟩ := by
  rintro ⟨t, ⟨hc, hlo, hhi⟩, hval⟩
  obtain ⟨s, c, e⟩ := t
  simp only [inRange128, decPrec, decEtiny, decEtop] at hc hlo hhi
  simp only [decVal] at hval
  cases s
  · simp only [if_neg Bool.false_ne_true, Bool.false_eq_true, if_false, one_mul] at hval
    have h10 : (10 : ℚ) ≠ 0 := by norm_num
    have hkey : (c : ℚ) = (10 : ℚ) ^ ((7000 : Int) - e) := by
      have h2 : (c : ℚ) * (10 : ℚ) ^ e * (10 : ℚ) ^ (-e) =
          (10 : ℚ) ^ ((7000 : Int)) * (10 : ℚ) ^ (-e) := by
        rw [hval]
        ring
      rw [mul_assoc, ← zpow_add₀ h10, ← zpow_add₀ h10] at h2
      simpa [sub_eq_add_neg] using h2
    have hnn : (0 : Int) ≤ 7000 - e := by omega
    obtain ⟨n, hn⟩ : ∃ n : Nat, (7000 - e : Int) = n := ⟨(7000 - e).toNat, by omega⟩
    rw [hn, zpow_natCast] at hkey
    have hcn : c = 10 ^ n := by exact_mod_cast hkey
    have hn35 : 35 ≤ n := by omega
    have hp1 : (10 : Nat) ^ 35 ≤ 10 ^ n := Nat.pow_le_pow_right (by norm_num) hn35
    have hp2 : (10 : Nat) ^ 34 < 10 ^ 35 := by norm_num
    omega
  · norm_num at hval
    have h1 : (0 : ℚ) < (10 : ℚ) ^ (7000 : Int) := by positivity
    have h2 : (0 : ℚ) ≤ (c : ℚ) * (10 : ℚ) ^ e := by positivity
    nlinarith [hval]

lemma applyPatch_sets_updated_at (p : StoredProduct) (u : ProductUpdate) (now : Nat) :
    (applyPatch p (buildPatch (setUpdatedAt now u))).updated_at = now := by
  obtain ⟨q, pr, st, ua⟩ := u
  cases q <;> cases pr <;> cases st <;>
    simp [buildPatch, setUpdatedAt, applyPatch, applyField]

/-- Claim C1 counterexample: the Update Input view ProductUpdate declares no
name field at all (src/store/schemas/product.py lines 26-30), so the claim
that every Product field — name included — is optionally updatable through it
is false. -/
theorem claimC1_counterexample : "name" ∉ productUpdateFields := by decide

/-- Claim C1 (amended): the Update Input view has quantity, price and status
optional, with updated_at always assigned by the mediator before the patch is
built, but it declares no name field at all; for every update request, a field
absent from the Update Input leaves the corresponding stored field unchanged,
and the stored name, id and created_at are left unchanged always. -/
theorem claimC1_amended (now : Nat) (u : ProductUpdate) (s : StoredProduct) :
    (applyPatch s (buildPatch (setUpdatedAt now u))).name = s.name ∧
    (applyPatch s (buildPatch (setUpdatedAt now u))).id = s.id ∧
    (applyPatch s (buildPatch (setUpdatedAt now u))).created_at = s.created_at ∧
    (u.quantity = none → (applyPatch s (buildPatch (setUpdatedAt now u))).quantity = s.quantity) ∧
    (u.price = none → (applyPatch s (buildPatch (setUpdatedAt now u))).price = s.price) ∧
    (u.status = none → (applyPatch s (buildPatch (setUpdatedAt now u))).status = s.status) ∧
    (applyPatch s (buildPatch (setUpdatedAt now u))).updated_at = now := by
  obtain ⟨q, pr, st, ua⟩ := u
  cases q <;> cases pr <;> cases st <;>
    simp [buildPatch, setUpdatedAt, applyPatch, applyField]

/-- Claim C1 witness: a fully unset update against a concrete stored document
leaves name, quantity, price, status, id and created_at unchanged and stamps
updated_at. -/
theorem claimC1_amended_witness :
    (applyPatch ⟨1, "w", 2, ⟨false, 1999, -2⟩, true, 3, 3⟩
      (buildPatch (setUpdatedAt 9 ⟨none, none, none, none⟩))).name = "w" ∧
    (applyPatch ⟨1, "w", 2, ⟨false, 1999, -2⟩, true, 3, 3⟩
      (buildPatch (setUpdatedAt 9 ⟨none, none, none, none⟩))).quantity = 2 ∧
    (applyPatch ⟨1, "w", 2, ⟨false, 1999, -2⟩, true, 3, 3⟩
      (buildPatch (setUpdatedAt 9 ⟨none, none, none, none⟩))).updated_at = 9 := by
  obtain h := claimC1_amended 9 ⟨none, none, none, none⟩
    ⟨1, "w", 2, ⟨false, 1999, -2⟩, true, 3, 3⟩
  exact ⟨h.1, h.2.2.2.1 rfl, h.2.2.2.2.2.2⟩

/-- Claim C2 counterexample: constructing the base view with an empty name, a
negative quantity and a negative price succeeds — the schema declares no value
constraints — instead of failing with a ValidationError naming the offending
field. -/
theorem claimC2_counterexample :
    validateProductBase
      [("name", JValue.jstr ""), ("quantity", JValue.jint (-5)),
        ("price", JValue.jdec ⟨true, 1999, -2⟩), ("status", JValue.jbool true)] =
      Except.ok ⟨"", -5, ⟨true, 1999, -2⟩, true⟩ := rfl

/-- Claim C2 (amended): construction of the product views enforces only field
presence and types — construction succeeds for every type-correct payload,
empty name, negative quantity or negative price included; a ValidationError
arises only from a missing or type-mismatched field (or, for the Update Input
price, a failed storage conversion), never from a value constraint. -/
theorem claimC2_amended (n : String) (q : Int) (p : Dec) (b : Bool) :
    validateProductBase
      [("name", JValue.jstr n), ("quantity", JValue.jint q),
        ("price", JValue.jdec p), ("status", JValue.jbool b)] = Except.ok ⟨n, q, p, b⟩ := rfl

/-- Claim C2 witness: a concrete type-correct payload constructs successfully. -/
theorem claimC2_witness :
    validateProductBase
      [("name", JValue.jstr "Widget"), ("quantity", JValue.jint 10),
        ("price", JValue.jdec ⟨false, 1999, -2⟩), ("status", JValue.jbool true)] =
      Except.ok ⟨"Widget", 10, ⟨false, 1999, -2⟩, true⟩ :=
  claimC2_amended "Widget" 10 ⟨false, 1999, -2⟩ true

/-- Claim C3 counterexample: the finite decimal with coefficient 10^34 and
exponent -34 (textually 1.0000000000000000000000000000000000, 35 coefficient
digits) converts successfully, the context rounding the coefficient to 34
digits exactly, but converting back yields a shorter text: the textual value
is not preserved for every finite decimal. -/
theorem claimC3_counterexample :
    convert_decimal_128 ⟨false, 10 ^ 34, -34⟩ = Except.ok ⟨false, 10 ^ 33, -33⟩ ∧
    toSciString ⟨false, 10 ^ 33, -33⟩ ≠ toSciString ⟨false, 10 ^ 34, -34⟩ := by
  constructor
  · decide
  · decide

/-- Claim C3 (amended): for every finite decimal whose coefficient has at most
34 digits and whose exponent lies in the Decimal128 literal-exponent range
[-6176, 6111], converting to the storage representation succeeds and
converting back preserves the original decimal's textual value exactly; the
conversion is a pure function of the input, hence deterministic. -/
theorem claimC3_amended (d : Dec) (h : inRange128 d) :
    (convert_decimal_128 d).map toSciString = Except.ok (toSciString d) := by
  rw [convert_decimal_128, fix128_id d h]
  rfl

/-- Claim C3 witness: the round trip at 19.99. -/
theorem claimC3_amended_witness :
    inRange128 ⟨false, 1999, -2⟩ ∧
    (convert_decimal_128 ⟨false, 1999, -2⟩).map toSciString =
      Except.ok (toSciString ⟨false, 1999, -2⟩) :=
  ⟨by decide, claimC3_amended ⟨false, 1999, -2⟩ (by decide)⟩

/-- Claim C4: on the update path (updated_at assigned by the mediator), the
patch contains exactly the fields the caller explicitly set plus updated_at,
and never contains id or created_at. -/
theorem claimC4_patch_fields (u : ProductUpdate) (now : Nat) (f : String) :
    (f ∈ (buildPatch (setUpdatedAt now u)).map Prod.fst ↔
      (f = "updated_at" ∨ (f = "quantity" ∧ u.quantity.isSome = true) ∨
        (f = "price" ∧ u.price.isSome = true) ∨ (f = "status" ∧ u.status.isSome = true))) ∧
    "id" ∉ (buildPatch (setUpdatedAt now u)).map Prod.fst ∧
    "created_at" ∉ (buildPatch (setUpdatedAt now u)).map Prod.fst := by
  obtain ⟨q, pr, st, ua⟩ := u
  cases q <;> cases pr <;> cases st <;>
    simp [buildPatch, setUpdatedAt] <;> tauto

/-- Claim C4 witness: the patch of a fully unset update input never carries
id. -/
theorem claimC4_witness :
    "id" ∉ (buildPatch (setUpdatedAt 5 (⟨none, none, none, none⟩ : ProductUpdate))).map Prod.fst :=
  (claimC4_patch_fields ⟨none, none, none, none⟩ 5 "id").2.1

/-- Claim C5: the patch route overwrites the body's updated_at with the
current server time before the usecase builds the patch, so the route's
result does not depend on any caller-supplied updated_at, and the merged
document it returns carries the server time as updated_at. -/
theorem claimC5_updated_at (now id : Nat) (b : ProductUpdate) (x : Option Nat)
    (store : List StoredProduct) :
    patchRoute now id { b with updated_at := x } store = patchRoute now id b store ∧
    (∀ code doc, patchRoute now id b store = Except.ok (code, doc) → doc.updated_at = now) := by
  constructor
  · rfl
  · intro code doc h
    rw [patchRoute] at h
    cases hu : usecaseUpdate id (setUpdatedAt now b) store with
    | error e =>
      rw [hu] at h
      cases e
      exact Except.noConfusion h
    | ok d2 =>
      rw [hu] at h
      rw [usecaseUpdate] at hu
      cases hf : List.find? (fun p => p.id == id) store with
      | none =>
        rw [hf] at hu
        exact Except.noConfusion hu
      | some p =>
        rw [hf] at hu
        injection hu with hu
        injection h with h
        injection h with hcode hdoc
        rw [← hdoc, ← hu]
        exact applyPatch_sets_updated_at p b now

/-- Claim C5 witness: a concrete update against a one-document store returns
the merged document stamped with the server time. -/
theorem claimC5_witness :
    patchRoute 5 7 ⟨none, none, none, none⟩ [⟨7, "w", 1, ⟨false, 1, 0⟩, true, 3, 3⟩] =
      Except.ok (200, ⟨7, "w", 1, ⟨false, 1, 0⟩, true, 3, 5⟩) ∧
    (⟨7, "w", 1, ⟨false, 1, 0⟩, true, 3, 5⟩ : StoredProduct).updated_at = 5 :=
  ⟨by decide,
    (claimC5_updated_at 5 7 ⟨none, none, none, none⟩ none
      [⟨7, "w", 1, ⟨false, 1, 0⟩, true, 3, 3⟩]).2 200
      ⟨7, "w", 1, ⟨false, 1, 0⟩, true, 3, 5⟩ (by decide)⟩

/-- Claim C6: the query behaviour the route intends (the literal source line
42, List<ProductOut], is a Python syntax error that prevents the controller
module from loading at all): with both bounds present the result is exactly
the stored entities with min <= price <= max, omitting a bound removes that
side of the constraint, omitting both returns every entity, and an empty
result is the empty sequence rather than a failure. -/
theorem claimC6_query (lo hi : ℚ) (store : List StoredProduct) (x : StoredProduct) :
    (x ∈ usecaseQuery (some lo) (some hi) store ↔
      x ∈ store ∧ lo ≤ decVal x.price ∧ decVal x.price ≤ hi) ∧
    (x ∈ usecaseQuery (some lo) none store ↔ x ∈ store ∧ lo ≤ decVal x.price) ∧
    (x ∈ usecaseQuery none (some hi) store ↔ x ∈ store ∧ decVal x.price ≤ hi) ∧
    usecaseQuery none none store = store ∧
    usecaseQuery (some lo) (some hi) [] = [] := by
  refine ⟨?_, ?_, ?_, ?_, rfl⟩
  · simp [usecaseQuery, List.mem_filter, and_assoc]
  · simp [usecaseQuery, List.mem_filter]
  · simp [usecaseQuery, List.mem_filter]
  · simp [usecaseQuery]

/-- Claim C6 witness: with both bounds omitted the query returns every stored
entity. -/
theorem claimC6_witness :
    usecaseQuery none none [⟨1, "w", 1, ⟨false, 1, 0⟩, true, 0, 0⟩] =
      [⟨1, "w", 1, ⟨false, 1, 0⟩, true, 0, 0⟩] :=
  (claimC6_query 0 1 [⟨1, "w", 1, ⟨false, 1, 0⟩, true, 0, 0⟩]
    ⟨1, "w", 1, ⟨false, 1, 0⟩, true, 0, 0⟩).2.2.2.1

/-- Claim C7: when no stored document carries the requested id, the update
route and the delete route each fail with the not-found outcome (HTTP 404)
carrying exactly that id, and with no other error kind. -/
theorem claimC7_not_found (now id : Nat) (b : ProductUpdate) (store : List StoredProduct)
    (h : ∀ p ∈ store, p.id ≠ id) :
    patchRoute now id b store = Except.error (404, id) ∧
    deleteRoute id store = Except.error (404, id) := by
  have hfind : List.find? (fun p => p.id == id) store = none := by
    rw [List.find?_eq_none]
    intro p hp
    simpa using h p hp
  have hany : store.any (fun p => p.id == id) = false := by
    rw [List.any_eq_false]
    intro p hp
    simpa using h p hp
  constructor
  · rw [patchRoute, usecaseUpdate, hfind]
  · rw [deleteRoute, usecaseDelete, hany]
    simp

/-- Claim C7 witness: update and delete against the empty store report 404
with the requested id. -/
theorem claimC7_witness :
    patchRoute 5 7 ⟨none, none, none, none⟩ [] = Except.error (404, 7) ∧
    deleteRoute 7 [] = Except.error (404, 7) :=
  claimC7_not_found 5 7 ⟨none, none, none, none⟩ [] (by simp)

lemma validateProductUpdate_price_only (d : Dec) :
    validateProductUpdate [("price", JValue.jdec d)] =
      (match convert_decimal_128 d with
      | Except.ok t => Except.ok ⟨none, some t, none, none⟩
      | Except.error e => Except.error (ValidationError.conversion e)) := by
  cases hc : convert_decimal_128 d with
  | ok t =>
    simp [validateProductUpdate, updQuantity, updPrice, updStatus, updUpdatedAt, lookupJ, hc]
  | error e =>
    simp [validateProductUpdate, updQuantity, updPrice, updStatus, updUpdatedAt, lookupJ, hc]

/-- Claim C8: a finite decimal whose numeric value no Decimal128 triple can
carry makes the storage conversion fail (the pymongo context traps the
inexact-rounding and overflow conditions), and on the update path the same
value makes construction of the Update Input fail with the conversion
error. -/
theorem claimC8_conversion_fails (d : Dec)
    (h : ¬ ∃ t : Dec, inRange128 t ∧ decVal t = decVal d) :
    (∃ e0, convert_decimal_128 d = Except.error e0) ∧
    (∃ e, validateProductUpdate [("price", JValue.jdec d)] =
      Except.error (ValidationError.conversion e)) := by
  cases hc : convert_decimal_128 d with
  | ok t => exact absurd ⟨t, (fix128_ok d t hc).1, (fix128_ok d t hc).2⟩ h
  | error e =>
    refine ⟨⟨e, rfl⟩, e, ?_⟩
    rw [validateProductUpdate_price_only, hc]

/-- Claim C8 witness: 1E+7000 is finite but not Decimal128-representable; its
conversion and the construction of an Update Input carrying it as price both
fail. -/
theorem claimC8_witness :
    (∃ e0, convert_decimal_128 ⟨false, 1, 7000⟩ = Except.error e0) ∧
    (∃ e, validateProductUpdate [("price", JValue.jdec ⟨false, 1, 7000⟩)] =
      Except.error (ValidationError.conversion e)) :=
  claimC8_conversion_fails ⟨false, 1, 7000⟩ not_representable_1e7000

/-- Claim C9: any successfully constructed Update Input that carries a price
holds it already converted to the storage engine's Decimal128 representation:
the held triple is Decimal128-encodable and is exactly the conversion's output
for the decimal the caller supplied in the raw payload, the conversion having
run during input validation, before any mediator logic. -/
theorem claimC9_price_converted (raw : List (String × JValue)) (u : ProductUpdate)
    (h : validateProductUpdate raw = Except.ok u) (p : Dec) (hp : u.price = some p) :
    inRange128 p ∧
    (∃ d0, lookupJ raw "price" = some (JValue.jdec d0) ∧
      convert_decimal_128 d0 = Except.ok p) := by
  rw [validateProductUpdate] at h
  cases hq : updQuantity raw with
  | error e =>
    rw [hq] at h
    exact Except.noConfusion h
  | ok q =>
    rw [hq] at h
    cases hpr : updPrice raw with
    | error e =>
      rw [hpr] at h
      exact Except.noConfusion h
    | ok popt =>
      rw [hpr] at h
      cases hs : updStatus raw with
      | error e =>
        rw [hs] at h
        exact Except.noConfusion h
      | ok so =>
        rw [hs] at h
        cases hu2 : updUpdatedAt raw with
        | error e =>
          rw [hu2] at h
          exact Except.noConfusion h
        | ok uo =>
          rw [hu2] at h
          injection h with h
          subst h
          have hp2 : popt = some p := hp
          rw [updPrice] at hpr
          cases hl : lookupJ raw "price" with
          | none =>
            rw [hl] at hpr
            injection hpr with hpr
            rw [← hpr] at hp2
            exact Option.noConfusion hp2
          | some v =>
            rw [hl] at hpr
            cases v with
            | jstr s2 =>
              dsimp only at hpr
              exact Except.noConfusion hpr
            | jint n2 =>
              dsimp only at hpr
              exact Except.noConfusion hpr
            | jbool b2 =>
              dsimp only at hpr
              exact Except.noConfusion hpr
            | jtime t2 =>
              dsimp only at hpr
              exact Except.noConfusion hpr
            | jnull =>
              dsimp only at hpr
              injection hpr with hpr
              rw [← hpr] at hp2
              exact Option.noConfusion hp2
            | jdec d0 =>
              dsimp only at hpr
              cases hc : convert_decimal_128 d0 with
              | error e =>
                rw [hc] at hpr
                exact Except.noConfusion hpr
              | ok t =>
                rw [hc] at hpr
                injection hpr with hpr
                rw [hp2] at hpr
                injection hpr with hpr
                rw [hpr] at hc
                exact ⟨(fix128_ok d0 p hc).1, d0, rfl, hc⟩

/-- Claim C9 witness: a raw update payload carrying price 19.99 validates to
an Update Input holding the converted Decimal128 value. -/
theorem claimC9_witness :
    inRange128 ⟨false, 1999, -2⟩ ∧
    (∃ d0, lookupJ [("price", JValue.jdec ⟨false, 1999, -2⟩)] "price" =
        some (JValue.jdec d0) ∧
      convert_decimal_128 d0 = Except.ok ⟨false, 1999, -2⟩) :=
  claimC9_price_converted [("price", JValue.jdec ⟨false, 1999, -2⟩)]
    ⟨none, some ⟨false, 1999, -2⟩, none, none⟩ (by decide) ⟨false, 1999, -2⟩ rfl

/-- Claim C10: the query route's price bounds are declared float, so every
caller-supplied bound reaches the usecase as its binary64 rounding; the
coercion is real: 19.99 is not binary64-representable, its rounded value
differs from the exact decimal value, and against a store holding one product
priced exactly 19.99 a price_max of 19.99 excludes that product whereas the
exact decimal comparison keeps it. -/
theorem claimC10_float_bounds (pmin pmax : Option Dec) (store : List StoredProduct) :
    queryRoute pmin pmax store =
      usecaseQuery (pmin.map (fun d => fval (float64Parts d)))
        (pmax.map (fun d => fval (float64Parts d))) store ∧
    fval (float64Parts ⟨false, 1999, -2⟩) ≠ decVal ⟨false, 1999, -2⟩ ∧
    queryRoute none (some ⟨false, 1999, -2⟩)
      [⟨1, "w", 1, ⟨false, 1999, -2⟩, true, 0, 0⟩] = [] ∧
    usecaseQuery none (some (decVal ⟨false, 1999, -2⟩))
      [⟨1, "w", 1, ⟨false, 1999, -2⟩, true, 0, 0⟩] =
      [⟨1, "w", 1, ⟨false, 1999, -2⟩, true, 0, 0⟩] := by
  have hparts : float64Parts ⟨false, 1999, -2⟩ = (5626684784446013, -48) := by decide
  have hvq : decVal ⟨false, 1999, -2⟩ = 1999 / 100 := by
    simp only [decVal]
    norm_num
  have hlt : fval (5626684784446013, -48) < 1999 / 100 := by
    rw [fval]
    norm_num
  have hnot : ¬ (decVal ⟨false, 1999, -2⟩ ≤ fval (float64Parts ⟨false, 1999, -2⟩)) := by
    rw [hparts, hvq]
    exact not_le.mpr hlt
  refine ⟨rfl, ?_, ?_, ?_⟩
  · rw [hparts, hvq]
    exact ne_of_lt hlt
  · simp [queryRoute, usecaseQuery, List.filter, decide_eq_false hnot]
  · simp [usecaseQuery, List.filter]

/-- Claim C10 witness: the route is the usecase query over the float-rounded
bounds, at a concrete instance. -/
theorem claimC10_witness :
    queryRoute none none [] = usecaseQuery none none [] :=
  (claimC10_float_bounds none none []).1

example : toSciString ⟨false, 1999, -2⟩ = "19.99" := by decide

example : convert_decimal_128 ⟨false, 1999, -2⟩ = Except.ok ⟨false, 1999, -2⟩ := by decide

example : convert_decimal_128 ⟨false, 10 ^ 34, -34⟩ = Except.ok ⟨false, 10 ^ 33, -33⟩ := by decide

example : convert_decimal_128 ⟨false, 1, 7000⟩ = Except.error ConvErr.overflow := by decide

example : toSciString ⟨false, 10 ^ 34, -34⟩ ≠ toSciString ⟨false, 10 ^ 33, -33⟩ := by decide
